import Mathlib

/-!
Shallow embedding of the statement-derivation engine of the wincap-saas
repository (FEC ingestion → financial statements), covering the entry
model, the account classifier, the P&L / balance / cash-flow / KPI / detail
builders, together with proofs of the specified properties.

Python `Decimal` amounts are modelled by `ℚ` (exact arithmetic, exact
division); Python dicts keyed by strings are modelled by association lists
(insertion order preserved) or, for fixed-key totals, by functions
`String → ℚ`.
-/

namespace Wincap

/-- Charwise list "is an initial segment" check (kernel-computable
version of Python `str.startswith`). -/
def listPre : List Char → List Char → Bool
  | [], _ => true
  | _ :: _, [] => false
  | a :: as, b :: bs => a = b && listPre as bs

/-- Python `account.startswith(p)` over the underlying character list. -/
def strStartsWith (s p : String) : Bool := listPre p.data s.data

/-- Python `str.strip()`: drop leading and trailing whitespace. -/
def strTrim (s : String) : String :=
  ⟨((s.data.dropWhile Char.isWhitespace).reverse.dropWhile
      Char.isWhitespace).reverse⟩

/-- Lexicographic strict order on character lists (kernel-computable
version of Python string `<`, by code point). -/
def listLtChars : List Char → List Char → Bool
  | [], [] => false
  | [], _ :: _ => true
  | _ :: _, [] => false
  | a :: as, b :: bs =>
    if a < b then true else if b < a then false else listLtChars as bs

/-- Python string `<` over the underlying character lists. -/
def strLt (a b : String) : Bool := listLtChars a.data b.data

/-- Calendar date (only the components used by the engine: `year` drives
fiscal-year attribution, and `isoformat` appears in trace tuples). -/
structure Date where
  year : Int
  month : Nat
  day : Nat
deriving DecidableEq, Repr

/-- Zero-pad a number to two digits, as Python's date.isoformat does. -/
def pad2 (n : Nat) : String :=
  if n < 10 then "0" ++ toString n else toString n

/-- `date.isoformat()` : "YYYY-MM-DD". -/
def Date.isoformat (d : Date) : String :=
  toString d.year ++ "-" ++ pad2 d.month ++ "-" ++ pad2 d.day

/-- `JournalEntry` — one FEC ledger line (src/models/entry.py). -/
structure JournalEntry where
  date : Date
  account_num : String
  label : String
  debit : ℚ
  credit : ℚ
  source_year : Option Int := none
deriving DecidableEq, Repr

namespace JournalEntry

/-- `amount` — net amount (debit - credit). -/
def amount (e : JournalEntry) : ℚ := e.debit - e.credit

/-- `account_class` — first digit of the account number ("" when empty). -/
def account_class (e : JournalEntry) : String :=
  if e.account_num = "" then "" else e.account_num.take 1

/-- `fiscal_year` — year of the entry date. -/
def fiscal_year (e : JournalEntry) : Int := e.date.year

/-- `effective_year` — source_year (from the file name) when present,
else the calendar year of the entry date. -/
def effective_year (e : JournalEntry) : Int :=
  match e.source_year with
  | some y => y
  | none => e.date.year

end JournalEntry

/-- One exported trace entry row: {date, account, label, amount}. -/
structure TraceEntry where
  date : String
  account : String
  label : String
  amount : ℚ
deriving DecidableEq, Repr

/-- `TracedValue` — an aggregated value with its contributing entries
(src/models/financials.py). Entry tuples are (date_str, account, label,
amount). -/
structure TracedValue where
  value : ℚ := 0
  entries : List (String × String × String × ℚ) := []
deriving DecidableEq, Repr

/-- Exported trace: {value, entry_count, entries} (`get_trace`). The
Python float conversion of the exact decimal is elided. -/
structure TraceExport where
  value : ℚ
  entry_count : Nat
  entries : List TraceEntry
deriving DecidableEq, Repr

namespace TracedValue

/-- `add` — accumulate an amount and record its source entry. -/
def add (tv : TracedValue) (amount : ℚ)
    (entry : String × String × String × ℚ) : TracedValue :=
  { value := tv.value + amount, entries := tv.entries ++ [entry] }

/-- `add_value` — combine with another TracedValue, merging entries. -/
def add_value (tv other : TracedValue) : TracedValue :=
  { value := tv.value + other.value, entries := tv.entries ++ other.entries }

/-- `get_trace` — export as a record with value, entry_count, entries. -/
def get_trace (tv : TracedValue) : TraceExport :=
  { value := tv.value
    entry_count := tv.entries.length
    entries := tv.entries.map fun t =>
      { date := t.1, account := t.2.1, label := t.2.2.1, amount := t.2.2.2 } }

end TracedValue

/-- Association-list lookup for trace maps (Python dict membership). -/
def tracesFind (tr : List (String × TracedValue)) (k : String) :
    Option TracedValue :=
  match tr.find? (fun p => p.1 = k) with
  | some p => some p.2
  | none => none

/-- `ProfitLoss` — one fiscal year's P&L (src/models/financials.py).
`traces` models the `_traces` dict (excluded from init, default empty). -/
structure ProfitLoss where
  year : Int
  revenue : ℚ := 0
  other_revenue : ℚ := 0
  purchases : ℚ := 0
  external_charges : ℚ := 0
  taxes : ℚ := 0
  personnel : ℚ := 0
  other_charges : ℚ := 0
  depreciation : ℚ := 0
  financial_income : ℚ := 0
  financial_expense : ℚ := 0
  exceptional_income : ℚ := 0
  exceptional_expense : ℚ := 0
  income_tax : ℚ := 0
  traces : List (String × TracedValue) := []
deriving DecidableEq, Repr

namespace ProfitLoss

/-- `production` = revenue + other_revenue. -/
def production (pl : ProfitLoss) : ℚ := pl.revenue + pl.other_revenue

/-- `total_charges` — operating charges before depreciation. -/
def total_charges (pl : ProfitLoss) : ℚ :=
  pl.purchases + pl.external_charges + pl.taxes + pl.personnel + pl.other_charges

/-- `ebitda` = production - total_charges. -/
def ebitda (pl : ProfitLoss) : ℚ := pl.production - pl.total_charges

/-- `ebit` = ebitda - depreciation. -/
def ebit (pl : ProfitLoss) : ℚ := pl.ebitda - pl.depreciation

/-- `financial_result` = financial_income - financial_expense. -/
def financial_result (pl : ProfitLoss) : ℚ :=
  pl.financial_income - pl.financial_expense

/-- `exceptional_result` = exceptional_income - exceptional_expense. -/
def exceptional_result (pl : ProfitLoss) : ℚ :=
  pl.exceptional_income - pl.exceptional_expense

/-- `net_income` = ebit + financial_result + exceptional_result - income_tax. -/
def net_income (pl : ProfitLoss) : ℚ :=
  pl.ebit + pl.financial_result + pl.exceptional_result - pl.income_tax

/-- `ebitda_margin` (%) — 0 when production is 0. -/
def ebitda_margin (pl : ProfitLoss) : ℚ :=
  if pl.production = 0 then 0 else pl.ebitda / pl.production * 100

/-- `set_traced` — record the traced value for a field name. -/
def set_traced (pl : ProfitLoss) (field_name : String)
    (traced_value : TracedValue) : ProfitLoss :=
  { pl with traces :=
      if pl.traces.any (fun p => p.1 = field_name) then
        pl.traces.map fun p =>
          if p.1 = field_name then (field_name, traced_value) else p
      else pl.traces ++ [(field_name, traced_value)] }

/-- `get_trace` — exported trace for a field, none when no trace exists. -/
def get_trace (pl : ProfitLoss) (field_name : String) : Option TraceExport :=
  match tracesFind pl.traces field_name with
  | some tv => some tv.get_trace
  | none => none

end ProfitLoss

/-- `BalanceSheet` — fiscal-year-end snapshot (src/models/financials.py). -/
structure BalanceSheet where
  year : Int
  fixed_assets : ℚ := 0
  inventory : ℚ := 0
  receivables : ℚ := 0
  other_receivables : ℚ := 0
  cash : ℚ := 0
  equity : ℚ := 0
  provisions : ℚ := 0
  financial_debt : ℚ := 0
  payables : ℚ := 0
  other_payables : ℚ := 0
  traces : List (String × TracedValue) := []
deriving DecidableEq, Repr

namespace BalanceSheet

/-- `total_assets`. -/
def total_assets (b : BalanceSheet) : ℚ :=
  b.fixed_assets + b.inventory + b.receivables + b.other_receivables + b.cash

/-- `total_liabilities`. -/
def total_liabilities (b : BalanceSheet) : ℚ :=
  b.equity + b.provisions + b.financial_debt + b.payables + b.other_payables

/-- `working_capital` (BFR) = inventory + receivables - payables. -/
def working_capital (b : BalanceSheet) : ℚ :=
  b.inventory + b.receivables - b.payables

/-- `net_debt` = financial_debt - cash. -/
def net_debt (b : BalanceSheet) : ℚ := b.financial_debt - b.cash

/-- `set_traced` — record the traced value for a field name. -/
def set_traced (b : BalanceSheet) (field_name : String)
    (traced_value : TracedValue) : BalanceSheet :=
  { b with traces :=
      if b.traces.any (fun p => p.1 = field_name) then
        b.traces.map fun p =>
          if p.1 = field_name then (field_name, traced_value) else p
      else b.traces ++ [(field_name, traced_value)] }

/-- `get_trace` — exported trace for a field, none when no trace exists. -/
def get_trace (b : BalanceSheet) (field_name : String) : Option TraceExport :=
  match tracesFind b.traces field_name with
  | some tv => some tv.get_trace
  | none => none

end BalanceSheet

/-- `KPIs` — one fiscal year's ratio bundle (src/models/financials.py). -/
structure KPIs where
  year : Int
  revenue : ℚ := 0
  ebitda : ℚ := 0
  ebitda_margin : ℚ := 0
  net_income : ℚ := 0
  dso : ℚ := 0
  dpo : ℚ := 0
  dio : ℚ := 0
  working_capital : ℚ := 0
  net_debt : ℚ := 0
  qoe_adjustments : List (String × ℚ) := []
deriving DecidableEq, Repr

/-- `adjusted_ebitda` = ebitda + sum of QoE adjustments. -/
def KPIs.adjusted_ebitda (k : KPIs) : ℚ :=
  k.ebitda + (k.qoe_adjustments.map (fun p => p.2)).sum

/-- `AccountMapper` (src/mapper/account_mapper.py) reduced to its loaded
state: `mapping` is the dict prefix-code → category, as an association
list in insertion order (dict keys are unique in Python, hence the
`keysNodup` hypotheses on theorems that need it). -/
structure AccountMapper where
  mapping : List (String × String)
deriving DecidableEq, Repr

namespace AccountMapper

/-- One iteration of the `get_category` loop: keep the candidate when it
string-matches the account and is strictly longer than the best so far. -/
def matchStep (account : String) (best : Option String × Nat)
    (pc : String × String) : Option String × Nat :=
  if strStartsWith account pc.1 ∧ best.2 < pc.1.length then
    (some pc.2, pc.1.length)
  else best

/-- `get_category` — longest-matching-prefix-code lookup; the account
number is stripped first, the best match starts at (None, 0). -/
def get_category (m : AccountMapper) (account_num : String) : Option String :=
  let account := strTrim account_num
  (m.mapping.foldl (matchStep account) (none, 0)).1

/-- The fixed P&L category vocabulary (classes 6 and 7). -/
def plCategories : List String :=
  ["revenue", "other_revenue", "purchases", "external_charges",
   "taxes", "personnel", "other_charges", "depreciation",
   "financial_expense", "financial_income",
   "exceptional_expense", "exceptional_income", "income_tax"]

/-- The fixed balance-sheet category vocabulary (classes 1-5). -/
def balanceCategories : List String :=
  ["fixed_assets", "inventory", "receivables", "other_receivables",
   "cash", "equity", "provisions", "financial_debt",
   "payables", "other_payables"]

/-- `get_pl_category` — category only when it is a P&L category. -/
def get_pl_category (m : AccountMapper) (account_num : String) :
    Option String :=
  match m.get_category account_num with
  | some c => if plCategories.contains c then some c else none
  | none => none

/-- `get_balance_category` — category only when it is a balance category. -/
def get_balance_category (m : AccountMapper) (account_num : String) :
    Option String :=
  match m.get_category account_num with
  | some c => if balanceCategories.contains c then some c else none
  | none => none

/-- Asset-like balance categories (debit-positive). -/
def assetCategories : List String :=
  ["fixed_assets", "inventory", "receivables", "other_receivables", "cash"]

/-- Liability-like balance categories (credit-positive). -/
def liabilityCategories : List String :=
  ["equity", "provisions", "financial_debt", "payables", "other_payables"]

/-- Class-digit fallback: classes 2,3,4,5,6 are debit-positive. -/
def firstDigitDebitPositive (account : String) : Bool :=
  ["2", "3", "4", "5", "6"].contains (account.take 1)

/-- `is_debit_positive` — category convention first, class digit second;
empty account numbers default to true. -/
def is_debit_positive (m : AccountMapper) (account_num : String) : Bool :=
  let account := strTrim account_num
  if account = "" then true
  else
    match m.get_balance_category account with
    | some category =>
      if assetCategories.contains category then true
      else if liabilityCategories.contains category then false
      else firstDigitDebitPositive account
    | none => firstDigitDebitPositive account

end AccountMapper

namespace PLBuilder

/-- Pointwise update of a totals map: `totals[category] += amount`. -/
def updTotals (t : String → ℚ) (k : String) (a : ℚ) : String → ℚ :=
  fun s => if s = k then t s + a else t s

/-- One iteration of the `PLBuilder.build` loop: classify, sign by
account class (7 → credit-positive, else debit-positive), accumulate. -/
def plStep (m : AccountMapper) (totals : String → ℚ) (entry : JournalEntry) :
    String → ℚ :=
  match m.get_pl_category entry.account_num with
  | some category =>
    let account_class :=
      if entry.account_num = "" then "" else entry.account_num.take 1
    let amount :=
      if account_class = "7" then entry.credit - entry.debit
      else entry.debit - entry.credit
    updTotals totals category amount
  | none => totals

/-- Aggregation part of `PLBuilder.build`, applied to the year-filtered
entry list. -/
def aggregate (m : AccountMapper) (year_entries : List JournalEntry)
    (year : Int) : ProfitLoss :=
  let totals := year_entries.foldl (plStep m) (fun _ => 0)
  { year := year
    revenue := totals "revenue"
    other_revenue := totals "other_revenue"
    purchases := totals "purchases"
    external_charges := totals "external_charges"
    taxes := totals "taxes"
    personnel := totals "personnel"
    other_charges := totals "other_charges"
    depreciation := totals "depreciation"
    financial_income := totals "financial_income"
    financial_expense := totals "financial_expense"
    exceptional_income := totals "exceptional_income"
    exceptional_expense := totals "exceptional_expense"
    income_tax := totals "income_tax" }

/-- `PLBuilder.build` — P&L for a fiscal year: keep entries with
`effective_year == year` (period semantics), then aggregate. -/
def build (m : AccountMapper) (entries : List JournalEntry) (year : Int) :
    ProfitLoss :=
  aggregate m (entries.filter fun e => decide (e.effective_year = year)) year

/-- One year-over-year variation record of `compute_variations`. -/
structure Variation where
  from_year : Int
  to_year : Int
  revenue_delta : ℚ
  revenue_pct : ℚ
  ebitda_delta : ℚ
  ebitda_pct : ℚ
  net_income_delta : ℚ
  net_income_pct : ℚ
deriving DecidableEq, Repr

/-- `_pct_change` — percentage change, 0 when the old value is 0. -/
def pct_change (old new' : ℚ) : ℚ :=
  if old = 0 then 0 else (new' - old) / |old| * 100

/-- The variation record built for one adjacent (prev, curr) pair inside
`compute_variations`. -/
def variation_of (prev curr : ProfitLoss) : Variation :=
  { from_year := prev.year
    to_year := curr.year
    revenue_delta := curr.revenue - prev.revenue
    revenue_pct := pct_change prev.revenue curr.revenue
    ebitda_delta := curr.ebitda - prev.ebitda
    ebitda_pct := pct_change prev.ebitda curr.ebitda
    net_income_delta := curr.net_income - prev.net_income
    net_income_pct := pct_change prev.net_income curr.net_income }

/-- `compute_variations` — one record per adjacent year pair (empty for
fewer than two statements). -/
def compute_variations : List ProfitLoss → List Variation
  | prev :: curr :: rest => variation_of prev curr :: compute_variations (curr :: rest)
  | _ => []

end PLBuilder

namespace BalanceBuilder

/-- Look up a category's trace accumulator, defaulting to the fresh
`TracedValue()` (defaultdict semantics). -/
def tracesGetD (tr : List (String × TracedValue)) (k : String) : TracedValue :=
  match tracesFind tr k with
  | some tv => tv
  | none => {}

/-- Store a category's trace accumulator back (dict assignment: update in
place when present, append in insertion order when new). -/
def tracesSet (tr : List (String × TracedValue)) (k : String)
    (v : TracedValue) : List (String × TracedValue) :=
  if tr.any (fun p => p.1 = k) then
    tr.map fun p => if p.1 = k then (k, v) else p
  else tr ++ [(k, v)]

/-- One iteration of the `BalanceBuilder.build` loop: classify, sign by
the account's debit/credit convention, accumulate the total and record
the entry tuple `(date.isoformat, account_num, label, amount)` in the
category's trace. -/
def balStep (m : AccountMapper)
    (st : (String → ℚ) × List (String × TracedValue))
    (entry : JournalEntry) : (String → ℚ) × List (String × TracedValue) :=
  match m.get_balance_category entry.account_num with
  | some category =>
    let amount :=
      if m.is_debit_positive entry.account_num then entry.debit - entry.credit
      else entry.credit - entry.debit
    let entry_tuple : String × String × String × ℚ :=
      (entry.date.isoformat, entry.account_num, entry.label, amount)
    (PLBuilder.updTotals st.1 category amount,
     tracesSet st.2 category ((tracesGetD st.2 category).add amount entry_tuple))
  | none => st

/-- Aggregation part of `BalanceBuilder.build`, applied to the filtered
entry list; the trace dict is installed on the statement afterwards. -/
def aggregate (m : AccountMapper) (year_entries : List JournalEntry)
    (year : Int) : BalanceSheet :=
  let st := year_entries.foldl (balStep m) (fun _ => 0, [])
  { year := year
    fixed_assets := st.1 "fixed_assets"
    inventory := st.1 "inventory"
    receivables := st.1 "receivables"
    other_receivables := st.1 "other_receivables"
    cash := st.1 "cash"
    equity := st.1 "equity"
    provisions := st.1 "provisions"
    financial_debt := st.1 "financial_debt"
    payables := st.1 "payables"
    other_payables := st.1 "other_payables"
    traces := st.2 }

/-- `BalanceBuilder.build` — balance sheet at year end: keep entries with
`effective_year <= year` (cumulative-to-date semantics), then aggregate
with trace tracking. -/
def build (m : AccountMapper) (entries : List JournalEntry) (year : Int) :
    BalanceSheet :=
  aggregate m (entries.filter fun e => decide (e.effective_year ≤ year)) year

end BalanceBuilder

/-- `KPICalculator` (src/engine/kpi_calculator.py): QoE adjustments per
year and the VAT gross-up rate (default 1.20). -/
structure KPICalculator where
  qoe_adjustments : List (Int × List (String × ℚ)) := []
  vat_rate : ℚ := 1.2
deriving DecidableEq, Repr

namespace KPICalculator

/-- `DAYS_IN_YEAR` — the fixed 360-day convention. -/
def DAYS_IN_YEAR : ℚ := 360

/-- `calculate` — KPIs for one (P&L, Balance) year: DSO/DPO apply the VAT
gross-up to the denominator, DIO divides by raw purchases; each ratio is
left at the zero default unless its guard (revenue > 0 or purchases > 0)
holds. -/
def calculate (c : KPICalculator) (pl : ProfitLoss) (balance : BalanceSheet) :
    KPIs :=
  let dso :=
    if pl.revenue > 0 then
      balance.receivables / (pl.revenue * c.vat_rate) * DAYS_IN_YEAR
    else 0
  let dpo :=
    if pl.purchases > 0 then
      balance.payables / (pl.purchases * c.vat_rate) * DAYS_IN_YEAR
    else 0
  let dio :=
    if pl.purchases > 0 then
      balance.inventory / pl.purchases * DAYS_IN_YEAR
    else 0
  { year := pl.year
    revenue := pl.revenue
    ebitda := pl.ebitda
    ebitda_margin := pl.ebitda_margin
    net_income := pl.net_income
    working_capital := balance.working_capital
    net_debt := balance.net_debt
    dso := dso
    dpo := dpo
    dio := dio
    qoe_adjustments :=
      match c.qoe_adjustments.find? (fun p => p.1 = pl.year) with
      | some p => p.2
      | none => [] }

end KPICalculator

/-- Cash-flow record (the fixed-key dict returned by
`CashFlowBuilder.build`). -/
structure CashFlow where
  year : Int
  ebitda : ℚ
  var_receivables : ℚ
  var_inventory : ℚ
  var_payables : ℚ
  var_other_wc : ℚ
  var_bfr : ℚ
  operating_cf : ℚ
  capex : ℚ
  investing_cf : ℚ
  var_debt : ℚ
  var_equity : ℚ
  financing_cf : ℚ
  net_cash_change : ℚ
  cash_start : ℚ
  cash_end : ℚ
deriving DecidableEq, Repr

namespace CashFlowBuilder

/-- `CashFlowBuilder.build` — indirect-method cash flow. With no prior
balance the record keeps its zero defaults except operating_cf = ebitda
and net_cash_change = cash at year end; with a prior balance the working
capital, investing and financing variations are populated. -/
def build (pl : ProfitLoss) (balance_start : Option BalanceSheet)
    (balance_end : BalanceSheet) : CashFlow :=
  match balance_start with
  | some bs =>
    let var_receivables := -(balance_end.receivables - bs.receivables)
    let var_inventory := -(balance_end.inventory - bs.inventory)
    let var_payables := balance_end.payables - bs.payables
    let var_other_wc :=
      -(balance_end.other_receivables - bs.other_receivables)
      + (balance_end.other_payables - bs.other_payables)
    let var_bfr := var_receivables + var_inventory + var_payables + var_other_wc
    let operating_cf := pl.ebitda + var_bfr
    let capex :=
      -((balance_end.fixed_assets - bs.fixed_assets) + pl.depreciation)
    let investing_cf := capex
    let var_debt := balance_end.financial_debt - bs.financial_debt
    let var_equity := balance_end.equity - bs.equity - pl.net_income
    let financing_cf := var_debt + var_equity
    { year := balance_end.year
      ebitda := pl.ebitda
      var_receivables := var_receivables
      var_inventory := var_inventory
      var_payables := var_payables
      var_other_wc := var_other_wc
      var_bfr := var_bfr
      operating_cf := operating_cf
      capex := capex
      investing_cf := investing_cf
      var_debt := var_debt
      var_equity := var_equity
      financing_cf := financing_cf
      net_cash_change := operating_cf + investing_cf + financing_cf
      cash_start := bs.cash
      cash_end := balance_end.cash }
  | none =>
    { year := balance_end.year
      ebitda := pl.ebitda
      var_receivables := 0
      var_inventory := 0
      var_payables := 0
      var_other_wc := 0
      var_bfr := 0
      operating_cf := pl.ebitda
      capex := 0
      investing_cf := 0
      var_debt := 0
      var_equity := 0
      financing_cf := 0
      net_cash_change := balance_end.cash
      cash_start := 0
      cash_end := balance_end.cash }

end CashFlowBuilder

/-- Association-list read with default (Python `dict.get` / defaultdict
access). -/
def getAssocD {α : Type} (l : List (String × α)) (k : String) (d : α) : α :=
  match l.find? (fun p => p.1 = k) with
  | some p => p.2
  | none => d

/-- Association-list write (dict assignment: update in place when the key
exists, append in insertion order when new). -/
def setAssoc {α : Type} (l : List (String × α)) (k : String) (v : α) :
    List (String × α) :=
  if l.any (fun p => p.1 = k) then
    l.map fun p => if p.1 = k then (k, v) else p
  else l ++ [(k, v)]

/-- Insert into a key-sorted association list (ascending string order). -/
def insertByKey {α : Type} (x : String × α) :
    List (String × α) → List (String × α)
  | [] => [x]
  | y :: ys => if strLt y.1 x.1 then y :: insertByKey x ys else x :: y :: ys

/-- Sort an association list by key, as Python `sorted(d.items())`. -/
def sortByKey {α : Type} (l : List (String × α)) : List (String × α) :=
  l.foldr insertByKey []

/-- Insert into a sorted string list. -/
def insertStr (x : String) : List String → List String
  | [] => [x]
  | y :: ys => if strLt y x then y :: insertStr x ys else x :: y :: ys

/-- Sort a string list ascending, as Python `sorted(set)`. -/
def sortStrings (l : List String) : List String :=
  l.foldr insertStr []

namespace DetailBuilder

/-- One category row of `build_category_breakdown`: {total, count,
accounts}. -/
structure CatBreak where
  total : ℚ := 0
  count : Nat := 0
  accounts : List String := []
deriving DecidableEq, Repr

/-- Python `set.add`: keep the account once (insertion order; the set is
sorted before being returned). -/
def addAccount (l : List String) (a : String) : List String :=
  if l.contains a then l else l ++ [a]

/-- One iteration of the `build_category_breakdown` loop: classify with
the full category table, sign by the class digit (6 → debit-positive,
7 → credit-positive, balance accounts debit-positive). -/
def breakdownStep (m : AccountMapper) (acc : List (String × CatBreak))
    (entry : JournalEntry) : List (String × CatBreak) :=
  match m.get_category entry.account_num with
  | some category =>
    let amount :=
      if entry.account_num.take 1 = "6" then entry.debit - entry.credit
      else if entry.account_num.take 1 = "7" then entry.credit - entry.debit
      else entry.debit - entry.credit
    let cur := getAssocD acc category {}
    setAssoc acc category
      { total := cur.total + amount
        count := cur.count + 1
        accounts := addAccount cur.accounts entry.account_num }
  | none => acc

/-- Aggregation part of `build_category_breakdown` over the year-filtered
entries, with each category's account set sorted for output. -/
def breakdownAggregate (m : AccountMapper)
    (year_entries : List JournalEntry) : List (String × CatBreak) :=
  let categories := year_entries.foldl (breakdownStep m) []
  categories.map fun p => (p.1, { p.2 with accounts := sortStrings p.2.accounts })

/-- `build_category_breakdown` — per-category totals for a given year,
filtering on the calendar year of the entry date (`fiscal_year`). -/
def build_category_breakdown (m : AccountMapper)
    (entries : List JournalEntry) (year : Int) : List (String × CatBreak) :=
  breakdownAggregate m (entries.filter fun e => decide (e.fiscal_year = year))

/-- Per-account accumulator of the detail views: {debit, credit, label}. -/
structure AcctData where
  debit : ℚ := 0
  credit : ℚ := 0
  label : String := ""
deriving DecidableEq, Repr

/-- One account line of a detail row: {account, label, amount}. -/
structure AccountLine where
  account : String
  label : String
  amount : ℚ
deriving DecidableEq, Repr

/-- One output row of `build_pl_detail`: a category with its subtotal and
its account lines. -/
structure PLDetailRow where
  category_label : String
  category : String
  total : ℚ
  accounts : List AccountLine
deriving DecidableEq, Repr

/-- The fixed P&L display structure (label, category) of
`build_pl_detail`. -/
def pl_structure : List (String × String) :=
  [("Chiffre d\x27affaires", "revenue"),
   ("Autres produits", "other_revenue"),
   ("Achats", "purchases"),
   ("Charges externes", "external_charges"),
   ("Imp\xf4ts et taxes", "taxes"),
   ("Charges de personnel", "personnel"),
   ("Autres charges", "other_charges"),
   ("Dotations aux amortissements", "depreciation"),
   ("Charges financi\xe8res", "financial_expense"),
   ("Produits financiers", "financial_income"),
   ("Charges exceptionnelles", "exceptional_expense"),
   ("Produits exceptionnels", "exceptional_income")]

/-- Categories whose detail amount is credit - debit in
`build_pl_detail`. -/
def incomeCategories : List String :=
  ["revenue", "other_revenue", "financial_income", "exceptional_income"]

/-- One iteration of the `build_pl_detail` aggregation loop: accumulate
debit/credit per (category, account), keeping the first label seen. -/
def plDetailStep (m : AccountMapper)
    (acc : List (String × List (String × AcctData)))
    (entry : JournalEntry) : List (String × List (String × AcctData)) :=
  match m.get_pl_category entry.account_num with
  | some category =>
    let catMap := getAssocD acc category []
    let data := getAssocD catMap entry.account_num {}
    let data' : AcctData :=
      { debit := data.debit + entry.debit
        credit := data.credit + entry.credit
        label := if data.label = "" then entry.label else data.label }
    setAssoc acc category (setAssoc catMap entry.account_num data')
  | none => acc

/-- Output part of `build_pl_detail`: for each structured category, the
sorted account lines (signed per category nature) and their running
subtotal. -/
def plDetailRows (acc : List (String × List (String × AcctData))) :
    List PLDetailRow :=
  pl_structure.map fun lc =>
    let items := sortByKey (getAssocD acc lc.2 [])
    let folded := items.foldl
      (fun (st : ℚ × List AccountLine) p =>
        let amount :=
          if incomeCategories.contains lc.2 then p.2.credit - p.2.debit
          else p.2.debit - p.2.credit
        (st.1 + amount,
         st.2 ++ [{ account := p.1, label := p.2.label, amount := amount }]))
      (0, [])
    { category_label := lc.1
      category := lc.2
      total := folded.1
      accounts := folded.2 }

/-- `build_pl_detail` — detailed P&L rows for a given year, filtering on
the calendar year of the entry date (`fiscal_year`). -/
def build_pl_detail (m : AccountMapper) (entries : List JournalEntry)
    (year : Int) : List PLDetailRow :=
  plDetailRows
    ((entries.filter fun e => decide (e.fiscal_year = year)).foldl
      (plDetailStep m) [])

end DetailBuilder

/-- Sum of the amount components of a trace entry list. -/
def sumAmounts (l : List (String × String × String × ℚ)) : ℚ :=
  (l.map fun t => t.2.2.2).sum

/-- TracedValues producible by the accumulation interface: start from the
fresh zero default and apply `add` (with the amount recorded in the entry
tuple, as `BalanceBuilder.build` does) and `add_value` steps. -/
inductive Reachable : TracedValue → Prop where
  | zero : Reachable {}
  | add (tv : TracedValue) (d acct lbl : String) (a : ℚ) :
      Reachable tv → Reachable (tv.add a (d, acct, lbl, a))
  | add_value (tv other : TracedValue) :
      Reachable tv → Reachable other → Reachable (tv.add_value other)

/-- C2: derived-field consistency — for every ProfitLoss, whatever the
raw field values, ebit = ebitda - depreciation and net_income = ebit +
financial_result + exceptional_result - income_tax exactly; the
summaries are recomputed accessor functions, never stored fields. -/
theorem derived_field_consistency (pl : ProfitLoss) :
    pl.ebit = pl.ebitda - pl.depreciation ∧
    pl.net_income =
      pl.ebit + pl.financial_result + pl.exceptional_result - pl.income_tax :=
  ⟨rfl, rfl⟩

/-- C7: cash-flow first-year boundary — with no prior balance, the
cash-flow record degenerates to operating_cf = ebitda and
net_cash_change = cash at year end, with every working-capital,
investing and financing component left at 0. -/
theorem cashflow_first_year_boundary (pl : ProfitLoss)
    (balance_end : BalanceSheet) :
    (CashFlowBuilder.build pl none balance_end).operating_cf = pl.ebitda ∧
    (CashFlowBuilder.build pl none balance_end).net_cash_change =
      balance_end.cash ∧
    (CashFlowBuilder.build pl none balance_end).var_receivables = 0 ∧
    (CashFlowBuilder.build pl none balance_end).var_inventory = 0 ∧
    (CashFlowBuilder.build pl none balance_end).var_payables = 0 ∧
    (CashFlowBuilder.build pl none balance_end).var_other_wc = 0 ∧
    (CashFlowBuilder.build pl none balance_end).var_bfr = 0 ∧
    (CashFlowBuilder.build pl none balance_end).capex = 0 ∧
    (CashFlowBuilder.build pl none balance_end).investing_cf = 0 ∧
    (CashFlowBuilder.build pl none balance_end).var_debt = 0 ∧
    (CashFlowBuilder.build pl none balance_end).var_equity = 0 ∧
    (CashFlowBuilder.build pl none balance_end).financing_cf = 0 :=
  ⟨rfl, rfl, rfl, rfl, rfl, rfl, rfl, rfl, rfl, rfl, rfl, rfl⟩

/-- C8: cash-flow formulas with a prior balance — var_bfr, operating_cf,
capex and financing_cf follow the indirect-method deltas between the two
balance sheets exactly as specified. -/
theorem cashflow_prior_balance_formulas (pl : ProfitLoss)
    (bs be : BalanceSheet) :
    (CashFlowBuilder.build pl (some bs) be).var_bfr =
      -(be.receivables - bs.receivables) - (be.inventory - bs.inventory)
      + (be.payables - bs.payables)
      + (-(be.other_receivables - bs.other_receivables)
         + (be.other_payables - bs.other_payables)) ∧
    (CashFlowBuilder.build pl (some bs) be).operating_cf =
      pl.ebitda + (CashFlowBuilder.build pl (some bs) be).var_bfr ∧
    (CashFlowBuilder.build pl (some bs) be).capex =
      -((be.fixed_assets - bs.fixed_assets) + pl.depreciation) ∧
    (CashFlowBuilder.build pl (some bs) be).financing_cf =
      (be.financial_debt - bs.financial_debt)
      + ((be.equity - bs.equity) - pl.net_income) := by
  refine ⟨?_, ?_, ?_, ?_⟩ <;> (simp only [CashFlowBuilder.build]; try ring)

/-- C9: the P&L builder records no provenance — a ProfitLoss returned by
PLBuilder.build has an empty trace map, so get_trace is none for every
field name. -/
theorem pl_builder_records_no_provenance (m : AccountMapper)
    (entries : List JournalEntry) (year : Int) (field_name : String) :
    (PLBuilder.build m entries year).traces = [] ∧
    (PLBuilder.build m entries year).get_trace field_name = none :=
  ⟨rfl, rfl⟩

/-- C5: zero-denominator defaults — ebitda_margin is 0 when production
is 0; the KPI calculator leaves dso at 0 unless revenue > 0 and dpo/dio
at 0 unless purchases > 0; the percentage change against a zero base is
exactly 0, hence compute_variations yields 0 for a percentage field
whose prior-year value is 0. -/
theorem zero_denominator_defaults :
    (∀ pl : ProfitLoss, pl.production = 0 → pl.ebitda_margin = 0) ∧
    (∀ (c : KPICalculator) (pl : ProfitLoss) (b : BalanceSheet),
      ¬ pl.revenue > 0 → (KPICalculator.calculate c pl b).dso = 0) ∧
    (∀ (c : KPICalculator) (pl : ProfitLoss) (b : BalanceSheet),
      ¬ pl.purchases > 0 → (KPICalculator.calculate c pl b).dpo = 0 ∧
        (KPICalculator.calculate c pl b).dio = 0) ∧
    (∀ new' : ℚ, PLBuilder.pct_change 0 new' = 0) ∧
    (∀ (prev curr : ProfitLoss) (rest : List ProfitLoss),
      prev.revenue = 0 →
      ∃ v vs, PLBuilder.compute_variations (prev :: curr :: rest) = v :: vs ∧
        v.revenue_pct = 0) := by
  refine ⟨fun pl h => ?_, fun c pl b h => ?_, fun c pl b h => ⟨?_, ?_⟩,
    fun new' => ?_, fun prev curr rest h =>
      ⟨PLBuilder.variation_of prev curr,
       PLBuilder.compute_variations (curr :: rest), rfl, ?_⟩⟩
  · simp only [ProfitLoss.ebitda_margin]
    rw [if_pos h]
  · simp only [KPICalculator.calculate]
    rw [if_neg h]
  · simp only [KPICalculator.calculate]
    rw [if_neg h]
  · simp only [KPICalculator.calculate]
    rw [if_neg h]
  · simp [PLBuilder.pct_change]
  · simp [PLBuilder.variation_of, PLBuilder.pct_change, h]

unseal Rat.add Rat.mul Rat.sub Rat.inv Rat.ofScientific in
/-- C5 witness: the guards evaluated at concrete zero denominators. -/
theorem zero_denominator_defaults_witness :
    ({ year := 2023 } : ProfitLoss).ebitda_margin = 0 ∧
    (KPICalculator.calculate {} { year := 2023 } { year := 2023 }).dso = 0 ∧
    (KPICalculator.calculate {} { year := 2023 } { year := 2023 }).dpo = 0 ∧
    (KPICalculator.calculate {} { year := 2023 } { year := 2023 }).dio = 0 ∧
    PLBuilder.pct_change 0 7 = 0 ∧
    (∃ v vs,
      PLBuilder.compute_variations [{ year := 2022 }, { year := 2023 }] =
        v :: vs ∧ v.revenue_pct = 0) :=
  ⟨zero_denominator_defaults.1 _ (by decide),
   zero_denominator_defaults.2.1 _ _ _ (by decide),
   (zero_denominator_defaults.2.2.1 _ _ _ (by decide)).1,
   (zero_denominator_defaults.2.2.1 _ _ _ (by decide)).2,
   zero_denominator_defaults.2.2.2.1 7,
   zero_denominator_defaults.2.2.2.2 _ _ [] rfl⟩

unseal Rat.add Rat.mul Rat.sub Rat.inv Rat.ofScientific in
/-- C6 counterexample: with purchases 300, inventory 300 and the default
VAT rate 1.2, the code computes dio = 300 / 300 * 360 = 360, not the
claimed VAT-grossed-up 300 / (300 * 1.2) * 360 = 300. -/
theorem vat_grossup_dio_counterexample :
    ¬ ((KPICalculator.calculate {} { year := 2023, purchases := 300 }
          { year := 2023, inventory := 300 }).dio =
        ({ year := 2023, inventory := 300 } : BalanceSheet).inventory /
          (({ year := 2023, purchases := 300 } : ProfitLoss).purchases *
            ({} : KPICalculator).vat_rate) * 360) := by decide

/-- C6 (amended): dso and dpo take the VAT gross-up in the denominator
(receivables / (revenue × vat_rate) × 360 when revenue > 0, and
payables / (purchases × vat_rate) × 360 when purchases > 0), while dio
divides by raw purchases with no gross-up (inventory / purchases × 360
when purchases > 0), all on the fixed 360-day convention. -/
theorem vat_grossup_turnover_ratios (c : KPICalculator) (pl : ProfitLoss)
    (b : BalanceSheet) :
    (pl.revenue > 0 → (KPICalculator.calculate c pl b).dso =
      b.receivables / (pl.revenue * c.vat_rate) * 360) ∧
    (pl.purchases > 0 → (KPICalculator.calculate c pl b).dpo =
      b.payables / (pl.purchases * c.vat_rate) * 360) ∧
    (pl.purchases > 0 → (KPICalculator.calculate c pl b).dio =
      b.inventory / pl.purchases * 360) := by
  refine ⟨fun h => ?_, fun h => ?_, fun h => ?_⟩ <;>
    (simp only [KPICalculator.calculate, KPICalculator.DAYS_IN_YEAR]
     rw [if_pos h])

unseal Rat.add Rat.mul Rat.sub Rat.inv Rat.ofScientific in
/-- C6 witness: the three ratio formulas evaluated at a concrete year
with positive revenue and purchases. -/
theorem vat_grossup_turnover_ratios_witness :
    (KPICalculator.calculate {}
        { year := 2023, revenue := 1000, purchases := 300 }
        { year := 2023, receivables := 120, payables := 90, inventory := 60 }).dso =
      ({ year := 2023, receivables := 120, payables := 90, inventory := 60 } :
          BalanceSheet).receivables /
        (({ year := 2023, revenue := 1000, purchases := 300 } :
            ProfitLoss).revenue * ({} : KPICalculator).vat_rate) * 360 ∧
    (KPICalculator.calculate {}
        { year := 2023, revenue := 1000, purchases := 300 }
        { year := 2023, receivables := 120, payables := 90, inventory := 60 }).dpo =
      ({ year := 2023, receivables := 120, payables := 90, inventory := 60 } :
          BalanceSheet).payables /
        (({ year := 2023, revenue := 1000, purchases := 300 } :
            ProfitLoss).purchases * ({} : KPICalculator).vat_rate) * 360 ∧
    (KPICalculator.calculate {}
        { year := 2023, revenue := 1000, purchases := 300 }
        { year := 2023, receivables := 120, payables := 90, inventory := 60 }).dio =
      ({ year := 2023, receivables := 120, payables := 90, inventory := 60 } :
          BalanceSheet).inventory /
        ({ year := 2023, revenue := 1000, purchases := 300 } :
            ProfitLoss).purchases * 360 :=
  ⟨(vat_grossup_turnover_ratios _ _ _).1 (by decide),
   (vat_grossup_turnover_ratios _ _ _).2.1 (by decide),
   (vat_grossup_turnover_ratios _ _ _).2.2 (by decide)⟩

/-- `sumAmounts` distributes over list append. -/
theorem sumAmounts_append (l1 l2 : List (String × String × String × ℚ)) :
    sumAmounts (l1 ++ l2) = sumAmounts l1 + sumAmounts l2 := by
  simp [sumAmounts]

/-- The defaultdict read of a trace map is Reachable whenever all stored
accumulators are (the default is the fresh zero TracedValue). -/
theorem reachable_tracesGetD (tr : List (String × TracedValue)) (k : String)
    (h : ∀ p ∈ tr, Reachable p.2) :
    Reachable (BalanceBuilder.tracesGetD tr k) := by
  unfold BalanceBuilder.tracesGetD tracesFind
  cases hf : tr.find? (fun p => p.1 = k) with
  | none => exact Reachable.zero
  | some p => exact h p (List.mem_of_find?_eq_some hf)

/-- Storing a Reachable accumulator keeps every stored accumulator
Reachable. -/
theorem reachable_tracesSet (tr : List (String × TracedValue)) (k : String)
    (v : TracedValue) (h : ∀ p ∈ tr, Reachable p.2) (hv : Reachable v) :
    ∀ p ∈ BalanceBuilder.tracesSet tr k v, Reachable p.2 := by
  intro p hp
  unfold BalanceBuilder.tracesSet at hp
  split at hp
  · obtain ⟨q, hq, hpq⟩ := List.mem_map.1 hp
    by_cases hqk : q.1 = k
    · rw [if_pos hqk] at hpq
      rw [← hpq]
      exact hv
    · rw [if_neg hqk] at hpq
      rw [← hpq]
      exact h q hq
  · rcases List.mem_append.1 hp with hq | hq
    · exact h p hq
    · rw [List.mem_singleton.1 hq]
      exact hv

/-- One balance-builder step keeps every stored accumulator Reachable:
the appended entry tuple records exactly the amount added. -/
theorem reachable_balStep (m : AccountMapper)
    (st : (String → ℚ) × List (String × TracedValue)) (e : JournalEntry)
    (h : ∀ p ∈ st.2, Reachable p.2) :
    ∀ p ∈ (BalanceBuilder.balStep m st e).2, Reachable p.2 := by
  unfold BalanceBuilder.balStep
  cases hc : m.get_balance_category e.account_num with
  | none => simpa using h
  | some category =>
    exact reachable_tracesSet _ _ _ h
      (Reachable.add _ _ _ _ _ (reachable_tracesGetD _ _ h))

/-- The balance-builder aggregation fold keeps every stored accumulator
Reachable. -/
theorem reachable_foldl (m : AccountMapper) :
    ∀ (entries : List JournalEntry)
      (st : (String → ℚ) × List (String × TracedValue)),
      (∀ p ∈ st.2, Reachable p.2) →
      ∀ p ∈ (entries.foldl (BalanceBuilder.balStep m) st).2, Reachable p.2 := by
  intro entries
  induction entries with
  | nil => intro st h; simpa using h
  | cons e rest ih => intro st h; exact ih _ (reachable_balStep m st e h)

/-- C4: trace conservation — every TracedValue produced by add/add_value
sequences from the zero default satisfies value = sum of the recorded
entry amounts and exports entry_count = number of recorded entries; and
every trace attached by BalanceBuilder.build is such a TracedValue. -/
theorem trace_conservation :
    (∀ tv : TracedValue, Reachable tv →
      tv.value = sumAmounts tv.entries ∧
      tv.get_trace.entry_count = tv.entries.length) ∧
    (∀ (m : AccountMapper) (entries : List JournalEntry) (year : Int),
      ∀ p ∈ (BalanceBuilder.build m entries year).traces, Reachable p.2) := by
  constructor
  · intro tv hr
    induction hr with
    | zero => exact ⟨rfl, rfl⟩
    | add tv d acct lbl a _ ih =>
      refine ⟨?_, rfl⟩
      simp [TracedValue.add, sumAmounts_append, ih.1, sumAmounts]
    | add_value tv other _ _ ih1 ih2 =>
      refine ⟨?_, rfl⟩
      simp [TracedValue.add_value, sumAmounts_append, ih1.1, ih2.1]
  · intro m entries year p hp
    exact reachable_foldl m _ _ (by simp) p hp

unseal Rat.add Rat.mul Rat.sub Rat.inv Rat.ofScientific in
/-- C4 witness: conservation evaluated on a concretely accumulated
TracedValue, and reachability of a trace concretely attached by
BalanceBuilder.build. -/
theorem trace_conservation_witness :
    ((({} : TracedValue).add 5 ("2024-01-15", "701000", "Vente", 5)).value =
      sumAmounts
        (({} : TracedValue).add 5 ("2024-01-15", "701000", "Vente", 5)).entries ∧
    ((({} : TracedValue).add 5 ("2024-01-15", "701000", "Vente", 5)).get_trace).entry_count =
      (({} : TracedValue).add 5 ("2024-01-15", "701000", "Vente", 5)).entries.length) ∧
    Reachable
      ({ value := 50, entries := [("2023-01-02", "411000", "Creance", 50)] } :
        TracedValue) :=
  ⟨trace_conservation.1 _
    (Reachable.add _ "2024-01-15" "701000" "Vente" 5 Reachable.zero),
   trace_conservation.2 ⟨[("41", "receivables")]⟩
     [{ date := { year := 2023, month := 1, day := 2 },
        account_num := "411000", label := "Creance", debit := 50, credit := 0 }]
     2024
     ("receivables",
      { value := 50, entries := [("2023-01-02", "411000", "Creance", 50)] })
     (by decide)⟩

/-- Filtering twice with the same predicate filters once. -/
theorem filter_filter_self {α : Type} (p : α → Bool) (l : List α) :
    (l.filter p).filter p = l.filter p := by
  induction l with
  | nil => rfl
  | cons a t ih => cases h : p a <;> simp [List.filter_cons, h, ih]

/-- C1: cumulative vs. period semantics — the balance sheet for a year
is exactly the aggregate of the entries with effective_year ≤ year, the
P&L exactly that of the entries with effective_year = year, and an entry
with a later effective year contributes to neither statement. -/
theorem cumulative_vs_period (m : AccountMapper)
    (entries : List JournalEntry) (year : Int) :
    BalanceBuilder.build m
        (entries.filter fun e => decide (e.effective_year ≤ year)) year =
      BalanceBuilder.build m entries year ∧
    PLBuilder.build m
        (entries.filter fun e => decide (e.effective_year = year)) year =
      PLBuilder.build m entries year ∧
    (∀ e : JournalEntry, year < e.effective_year →
      BalanceBuilder.build m (entries ++ [e]) year =
        BalanceBuilder.build m entries year ∧
      PLBuilder.build m (entries ++ [e]) year =
        PLBuilder.build m entries year) := by
  refine ⟨?_, ?_, fun e he => ⟨?_, ?_⟩⟩
  · unfold BalanceBuilder.build
    rw [filter_filter_self]
  · unfold PLBuilder.build
    rw [filter_filter_self]
  · unfold BalanceBuilder.build
    have h1 : decide (e.effective_year ≤ year) = false := by
      simp [not_le.2 he]
    simp [List.filter_append, List.filter_cons, h1]
  · unfold PLBuilder.build
    have h1 : decide (e.effective_year = year) = false := by
      simp [ne_of_gt he]
    simp [List.filter_append, List.filter_cons, h1]

/-- C1 witness: a 2024-effective entry leaves both 2023 statements
unchanged. -/
theorem cumulative_vs_period_witness :
    BalanceBuilder.build ⟨[("41", "receivables")]⟩
        ([] ++ [{ date := { year := 2024, month := 3, day := 1 },
                  account_num := "411000", label := "x",
                  debit := 10, credit := 0 }]) 2023 =
      BalanceBuilder.build ⟨[("41", "receivables")]⟩ [] 2023 ∧
    PLBuilder.build ⟨[("41", "receivables")]⟩
        ([] ++ [{ date := { year := 2024, month := 3, day := 1 },
                  account_num := "411000", label := "x",
                  debit := 10, credit := 0 }]) 2023 =
      PLBuilder.build ⟨[("41", "receivables")]⟩ [] 2023 :=
  (cumulative_vs_period ⟨[("41", "receivables")]⟩ [] 2023).2.2
    { date := { year := 2024, month := 3, day := 1 },
      account_num := "411000", label := "x", debit := 10, credit := 0 }
    (by decide)

/-- A string of length 0 is the empty string. -/
theorem string_length_zero {s : String} (h : s.length = 0) : s = "" := by
  cases s with
  | mk data =>
    cases data with
    | nil => rfl
    | cons c cs => simp [String.length] at h

/-- Specification of the `get_category` fold: the result is the initial
best or a genuine match from the list; the tracked length never
decreases; and it dominates the length of every match in the list. -/
theorem matchStep_foldl_spec (account : String) (l : List (String × String)) :
    ∀ b : Option String × Nat,
      (l.foldl (AccountMapper.matchStep account) b = b ∨
        ∃ p c, (p, c) ∈ l ∧ strStartsWith account p = true ∧
          l.foldl (AccountMapper.matchStep account) b = (some c, p.length)) ∧
      b.2 ≤ (l.foldl (AccountMapper.matchStep account) b).2 ∧
      (∀ pc ∈ l, strStartsWith account pc.1 = true →
        pc.1.length ≤ (l.foldl (AccountMapper.matchStep account) b).2) := by
  induction l with
  | nil => exact fun b => ⟨Or.inl rfl, le_refl _, by simp⟩
  | cons hd tl ih =>
    intro b
    rw [List.foldl_cons]
    by_cases hc : strStartsWith account hd.1 = true ∧ b.2 < hd.1.length
    · have hstep : AccountMapper.matchStep account b hd =
          (some hd.2, hd.1.length) := by
        unfold AccountMapper.matchStep
        rw [if_pos hc]
      rw [hstep]
      obtain ⟨ihd, ihle, ihmax⟩ := ih (some hd.2, hd.1.length)
      refine ⟨?_, ?_, ?_⟩
      · rcases ihd with h | ⟨p, c, hmem, hsw, heq⟩
        · exact Or.inr ⟨hd.1, hd.2, List.mem_cons_self _ _, hc.1, by rw [h]⟩
        · exact Or.inr ⟨p, c, List.mem_cons_of_mem _ hmem, hsw, heq⟩
      · exact le_trans (le_of_lt hc.2) ihle
      · intro pc hmem hsw
        rcases List.mem_cons.1 hmem with heqpc | hmem'
        · rw [heqpc]
          exact ihle
        · exact ihmax pc hmem' hsw
    · have hstep : AccountMapper.matchStep account b hd = b := by
        unfold AccountMapper.matchStep
        rw [if_neg hc]
      rw [hstep]
      obtain ⟨ihd, ihle, ihmax⟩ := ih b
      refine ⟨?_, ihle, ?_⟩
      · rcases ihd with h | ⟨p, c, hmem, hsw, heq⟩
        · exact Or.inl h
        · exact Or.inr ⟨p, c, List.mem_cons_of_mem _ hmem, hsw, heq⟩
      · intro pc hmem hsw
        rcases List.mem_cons.1 hmem with heqpc | hmem'
        · have hnlt : ¬ b.2 < pc.1.length := by
            rw [heqpc] at hsw ⊢
            exact fun hlt => hc ⟨hsw, hlt⟩
          exact le_trans (not_lt.1 hnlt) ihle
        · exact ihmax pc hmem' hsw

/-- C3: longest-match classification — with nonempty configured
prefix-codes, `get_category` returns none exactly when no configured
code string-matches the (stripped) account number, any returned category
belongs to a matching code of maximal length among all matching codes,
and in particular with both "4" and "41" configured the account "411000"
classifies under the "41" mapping, never the "4" one. -/
theorem get_category_longest_match (m : AccountMapper) (acct : String)
    (hne : ∀ pc ∈ m.mapping, pc.1 ≠ "") :
    (m.get_category acct = none ↔
      ∀ pc ∈ m.mapping, strStartsWith (strTrim acct) pc.1 = false) ∧
    (∀ c, m.get_category acct = some c →
      ∃ p, (p, c) ∈ m.mapping ∧ strStartsWith (strTrim acct) p = true ∧
        ∀ pc ∈ m.mapping, strStartsWith (strTrim acct) pc.1 = true →
          pc.1.length ≤ p.length) ∧
    AccountMapper.get_category
        ⟨[("4", "other_receivables"), ("41", "receivables")]⟩ "411000" =
      some "receivables" := by
  obtain ⟨hd, hle, hmax⟩ :=
    matchStep_foldl_spec (strTrim acct) m.mapping (none, 0)
  refine ⟨⟨?_, ?_⟩, ?_, by decide⟩
  · intro hnone pc hmem
    cases hsw : strStartsWith (strTrim acct) pc.1 with
    | false => rfl
    | true =>
      exfalso
      rcases hd with h | ⟨p, c, _, _, heq⟩
      · have hlen : pc.1.length ≤ 0 := by
          have := hmax pc hmem hsw
          rw [h] at this
          exact this
        exact hne pc hmem (string_length_zero (Nat.le_zero.1 hlen))
      · have : m.get_category acct = some c := by
          simp only [AccountMapper.get_category]
          rw [heq]
        rw [hnone] at this
        exact Option.noConfusion this
  · intro hall
    rcases hd with h | ⟨p, c, hmem, hsw, _⟩
    · simp only [AccountMapper.get_category]
      rw [h]
    · rw [hall (p, c) hmem] at hsw
      exact Bool.noConfusion hsw
  · intro c hsome
    rcases hd with h | ⟨p, c', hmem, hsw, heq⟩
    · exfalso
      simp only [AccountMapper.get_category] at hsome
      rw [h] at hsome
      exact Option.noConfusion hsome
    · have hc : c' = c := by
        simp only [AccountMapper.get_category] at hsome
        rw [heq] at hsome
        exact Option.some.inj hsome
      subst hc
      refine ⟨p, hmem, hsw, fun pc hm hs => ?_⟩
      have := hmax pc hm hs
      rw [heq] at this
      exact this

/-- C3 witness: the maximal-length matching code for account "411000"
over the {"4", "41"} table. -/
theorem get_category_longest_match_witness :
    ∃ p, (p, "receivables") ∈
        [("4", "other_receivables"), ("41", "receivables")] ∧
      strStartsWith (strTrim "411000") p = true ∧
      ∀ pc ∈ [("4", "other_receivables"), ("41", "receivables")],
        strStartsWith (strTrim "411000") pc.1 = true →
          pc.1.length ≤ p.length :=
  (get_category_longest_match
    ⟨[("4", "other_receivables"), ("41", "receivables")]⟩ "411000"
    (by decide)).2.1 "receivables" (by decide)

/-- The detail-view steps never read `source_year`. -/
theorem plDetailStep_source_year_irrelevant (m : AccountMapper)
    (acc : List (String × List (String × DetailBuilder.AcctData)))
    (x : JournalEntry) (y : Option Int) :
    DetailBuilder.plDetailStep m acc { x with source_year := y } =
      DetailBuilder.plDetailStep m acc x := rfl

/-- The category-breakdown step never reads `source_year`. -/
theorem breakdownStep_source_year_irrelevant (m : AccountMapper)
    (acc : List (String × DetailBuilder.CatBreak))
    (x : JournalEntry) (y : Option Int) :
    DetailBuilder.breakdownStep m acc { x with source_year := y } =
      DetailBuilder.breakdownStep m acc x := rfl

unseal Rat.add Rat.mul Rat.sub Rat.inv Rat.ofScientific in
/-- C10: detail views filter by calendar year — build_pl_detail and
build_category_breakdown depend only on the entries whose date.year
matches and ignore source_year entirely, while PLBuilder.build filters
on effective_year; concretely, an entry dated 2023 carrying source_year
2024 lands in the 2024 P&L but in the 2023 detail views. -/
theorem detail_views_filter_by_calendar_year (m : AccountMapper)
    (entries : List JournalEntry) (year : Int) :
    (DetailBuilder.build_pl_detail m
        (entries.filter fun e => decide (e.fiscal_year = year)) year =
      DetailBuilder.build_pl_detail m entries year ∧
    DetailBuilder.build_category_breakdown m
        (entries.filter fun e => decide (e.fiscal_year = year)) year =
      DetailBuilder.build_category_breakdown m entries year) ∧
    (∀ g : JournalEntry → Option Int,
      DetailBuilder.build_pl_detail m
          (entries.map fun e => { e with source_year := g e }) year =
        DetailBuilder.build_pl_detail m entries year ∧
      DetailBuilder.build_category_breakdown m
          (entries.map fun e => { e with source_year := g e }) year =
        DetailBuilder.build_category_breakdown m entries year) ∧
    ((PLBuilder.build ⟨[("70", "revenue")]⟩
        [{ date := { year := 2023, month := 5, day := 10 },
           account_num := "701000", label := "Vente",
           debit := 0, credit := 100, source_year := some 2024 }]
        2024).revenue = 100 ∧
    DetailBuilder.build_category_breakdown ⟨[("70", "revenue")]⟩
        [{ date := { year := 2023, month := 5, day := 10 },
           account_num := "701000", label := "Vente",
           debit := 0, credit := 100, source_year := some 2024 }]
        2024 = [] ∧
    (PLBuilder.build ⟨[("70", "revenue")]⟩
        [{ date := { year := 2023, month := 5, day := 10 },
           account_num := "701000", label := "Vente",
           debit := 0, credit := 100, source_year := some 2024 }]
        2023).revenue = 0 ∧
    DetailBuilder.build_category_breakdown ⟨[("70", "revenue")]⟩
        [{ date := { year := 2023, month := 5, day := 10 },
           account_num := "701000", label := "Vente",
           debit := 0, credit := 100, source_year := some 2024 }]
        2023 =
      [("revenue", { total := 100, count := 1, accounts := ["701000"] })]) := by
  refine ⟨⟨?_, ?_⟩, fun g => ⟨?_, ?_⟩, by decide, by decide, by decide, by decide⟩
  · unfold DetailBuilder.build_pl_detail
    rw [filter_filter_self]
  · unfold DetailBuilder.build_category_breakdown
    rw [filter_filter_self]
  · unfold DetailBuilder.build_pl_detail
    rw [List.filter_map, List.foldl_map]
    have hpf : ((fun e => decide (e.fiscal_year = year)) ∘
        (fun e : JournalEntry => { e with source_year := g e })) =
        fun e : JournalEntry => decide (e.fiscal_year = year) := by
      funext x; rfl
    rw [hpf]
    have hstep :
        (fun (acc : List (String × List (String × DetailBuilder.AcctData)))
            (x : JournalEntry) =>
          DetailBuilder.plDetailStep m acc { x with source_year := g x }) =
        fun acc x => DetailBuilder.plDetailStep m acc x := by
      funext acc x; rfl
    rw [hstep]
  · unfold DetailBuilder.build_category_breakdown
      DetailBuilder.breakdownAggregate
    rw [List.filter_map, List.foldl_map]
    have hpf : ((fun e => decide (e.fiscal_year = year)) ∘
        (fun e : JournalEntry => { e with source_year := g e })) =
        fun e : JournalEntry => decide (e.fiscal_year = year) := by
      funext x; rfl
    rw [hpf]
    have hstep :
        (fun (acc : List (String × DetailBuilder.CatBreak))
            (x : JournalEntry) =>
          DetailBuilder.breakdownStep m acc { x with source_year := g x }) =
        fun acc x => DetailBuilder.breakdownStep m acc x := by
      funext acc x; rfl
    rw [hstep]

end Wincap
